import Mathlib

/-!
Shallow embedding of the overpass-network core (Rust) in Lean 4, together
with theorems settling the specification claims about it.

Source files embedded:
- src/overpass-rs/src/core/hierarchy/root/root_contract.rs
- src/overpass-rs/src/core/hierarchy/intermediate/sparse_merkle_tree_i.rs
- src/overpass-rs/src/core/storage_node/storage_node_contract.rs
- src/overpass-rs/src/core/storage_node/attest/response.rs
- src/overpass-rs/src/core/hierarchy/client/wallet_extension/bitcoin_b2o/bitcoin_state_converter.rs

Modelling conventions:
- machine bytes are Nat values below 256; byte strings are List Nat;
- u64 arithmetic is Nat arithmetic reduced modulo 2 ^ 64 where the Rust code
  can overflow or underflow (release / wrapping semantics);
- Rust HashMap is modelled as an association list with first-match lookup and
  replace-or-append insertion (key order is irrelevant to every claim);
- fallible Rust functions returning Result are modelled with Except;
- the external plonky2 circuit builder mutated by the intermediate sparse
  Merkle tree is an out-of-scope proof-backend collaborator (spec section 1);
  its mutations never feed back into the tree fields the claims are about, so
  it is elided from the tree state;
- floating point fields (average_verification_time_ms, last_verification_time)
  are not representable here and are elided; no claim mentions them.
-/

set_option maxRecDepth 40000

namespace Overpass

/-- Bytes as Nat values below 256. -/
abbrev Bytes := List Nat

/-- 32-byte hashes, stored as byte lists. -/
abbrev Hash256 := List Nat

/-- Modulus of u64 arithmetic. -/
def U64MOD : Nat := 2 ^ 64

/-- Wrapping u64 subtraction a - b for a b < 2 ^ 64 (Rust release semantics). -/
def wrapSub64 (a b : Nat) : Nat := (a + U64MOD - b) % U64MOD

/-- Wrapping u64 increment (Rust release semantics). -/
def wrapSucc64 (a : Nat) : Nat := (a + 1) % U64MOD

/-! ## SHA-256 (the sha2 crate used by the sources, external dependency)

Executable SHA-256 over byte lists, per FIPS 180-4.  32-bit words are Nat
values kept below 2 ^ 32.
-/

namespace SHA256

def MASK32 : Nat := 2 ^ 32 - 1

def add32 (a b : Nat) : Nat := (a + b) % 2 ^ 32

def rotr32 (n x : Nat) : Nat := ((x >>> n) ||| (x <<< (32 - n))) &&& MASK32

def bsig0 (x : Nat) : Nat := rotr32 2 x ^^^ rotr32 13 x ^^^ rotr32 22 x

def bsig1 (x : Nat) : Nat := rotr32 6 x ^^^ rotr32 11 x ^^^ rotr32 25 x

def ssig0 (x : Nat) : Nat := rotr32 7 x ^^^ rotr32 18 x ^^^ (x >>> 3)

def ssig1 (x : Nat) : Nat := rotr32 17 x ^^^ rotr32 19 x ^^^ (x >>> 10)

def ch (x y z : Nat) : Nat := (x &&& y) ^^^ ((x ^^^ MASK32) &&& z)

def maj (x y z : Nat) : Nat := (x &&& y) ^^^ (x &&& z) ^^^ (y &&& z)

def K : List Nat :=
  [1116352408, 1899447441, 3049323471, 3921009573, 961987163, 1508970993,
   2453635748, 2870763221, 3624381080, 310598401, 607225278, 1426881987,
   1925078388, 2162078206, 2614888103, 3248222580, 3835390401, 4022224774,
   264347078, 604807628, 770255983, 1249150122, 1555081692, 1996064986,
   2554220882, 2821834349, 2952996808, 3210313671, 3336571891, 3584528711,
   113926993, 338241895, 666307205, 773529912, 1294757372, 1396182291,
   1695183700, 1986661051, 2177026350, 2456956037, 2730485921, 2820302411,
   3259730800, 3345764771, 3516065817, 3600352804, 4094571909, 275423344,
   430227734, 506948616, 659060556, 883997877, 958139571, 1322822218,
   1537002063, 1747873779, 1955562222, 2024104815, 2227730452, 2361852424,
   2428436474, 2756734187, 3204031479, 3329325298]

def H0 : List Nat :=
  [1779033703, 3144134277, 1013904242, 2773480762,
   1359893119, 2600822924, 528734635, 1541459225]

/-- Group bytes into big-endian 32-bit words. -/
def toWords : List Nat → List Nat
  | a :: b :: c :: d :: rest => (((a * 256 + b) * 256 + c) * 256 + d) :: toWords rest
  | _ => []

/-- One new message-schedule word, from the reversed schedule so far. -/
def schedWord (wrev : List Nat) : Nat :=
  add32 (add32 (ssig1 (wrev.getD 1 0)) (wrev.getD 6 0))
        (add32 (ssig0 (wrev.getD 14 0)) (wrev.getD 15 0))

/-- Extend the reversed message schedule by n words. -/
def extendSched : Nat → List Nat → List Nat
  | 0, wrev => wrev
  | n + 1, wrev => extendSched n (schedWord wrev :: wrev)

/-- The 64-word message schedule of one 16-word block. -/
def schedule (block16 : List Nat) : List Nat :=
  (extendSched 48 block16.reverse).reverse

/-- The eight 32-bit working variables. -/
structure Regs where
  a : Nat
  b : Nat
  c : Nat
  d : Nat
  e : Nat
  f : Nat
  g : Nat
  h : Nat

/-- One compression round, fed one (round constant, schedule word) pair. -/
def roundStep (s : Regs) (kw : Nat × Nat) : Regs :=
  let t1 := add32 (add32 s.h (bsig1 s.e)) (add32 (ch s.e s.f s.g) (add32 kw.1 kw.2))
  let t2 := add32 (bsig0 s.a) (maj s.a s.b s.c)
  ⟨add32 t1 t2, s.a, s.b, s.c, add32 s.d t1, s.e, s.f, s.g⟩

/-- Compress one 64-byte block into the running hash (eight words). -/
def compress (hs : List Nat) (block : List Nat) : List Nat :=
  let ws := schedule (toWords block)
  let s0 : Regs := ⟨hs.getD 0 0, hs.getD 1 0, hs.getD 2 0, hs.getD 3 0,
                    hs.getD 4 0, hs.getD 5 0, hs.getD 6 0, hs.getD 7 0⟩
  let s1 := (K.zip ws).foldl roundStep s0
  [add32 s0.a s1.a, add32 s0.b s1.b, add32 s0.c s1.c, add32 s0.d s1.d,
   add32 s0.e s1.e, add32 s0.f s1.f, add32 s0.g s1.g, add32 s0.h s1.h]

/-- Big-endian 8-byte encoding. -/
def be8 (n : Nat) : List Nat :=
  [(n >>> 56) % 256, (n >>> 48) % 256, (n >>> 40) % 256, (n >>> 32) % 256,
   (n >>> 24) % 256, (n >>> 16) % 256, (n >>> 8) % 256, n % 256]

/-- FIPS 180-4 padding: 0x80, zeros to 56 mod 64, then the bit length. -/
def pad (msg : Bytes) : Bytes :=
  let zeros := (64 + 56 - (msg.length + 1) % 64) % 64
  msg ++ 0x80 :: List.replicate zeros 0 ++ be8 (8 * msg.length)

/-- Split into 64-byte chunks (fuel-driven; fuel bounds the chunk count). -/
def chunksGo : Nat → List Nat → List (List Nat)
  | 0, _ => []
  | _, [] => []
  | fuel + 1, l => l.take 64 :: chunksGo fuel (l.drop 64)

def chunks (l : List Nat) : List (List Nat) := chunksGo l.length l

/-- Word list to big-endian byte list. -/
def wordsToBytes (ws : List Nat) : Bytes :=
  ws.flatMap (fun w => [(w >>> 24) % 256, (w >>> 16) % 256, (w >>> 8) % 256, w % 256])

end SHA256

/-- SHA-256 of a byte string, as a 32-byte list. -/
def sha256 (msg : Bytes) : Hash256 :=
  SHA256.wordsToBytes ((SHA256.chunks (SHA256.pad msg)).foldl SHA256.compress SHA256.H0)

/-- Sanity check against the FIPS test vector for the empty message. -/
theorem sha256_empty_vector :
    sha256 [] =
      [227, 176, 196, 66, 152, 252, 28, 20, 154, 251, 244, 200,
       153, 111, 185, 36, 39, 174, 65, 228, 100, 155, 147, 76,
       164, 149, 153, 27, 120, 82, 184, 85] := by
  decide

/-- Sanity check against the FIPS test vector for the message "abc". -/
theorem sha256_abc_vector :
    sha256 [0x61, 0x62, 0x63] =
      [186, 120, 22, 191, 143, 1, 207, 234, 65, 65, 64, 222,
       93, 174, 34, 35, 176, 3, 97, 163, 150, 23, 122, 156,
       180, 16, 255, 97, 242, 0, 21, 173] := by
  decide

/-! ## Common error types (src/core/error/errors.rs, mirrored from usage) -/

/-- The error kinds the embedded sources construct or the spec names. -/
inductive SystemErrorType where
  | NotFound
  | InvalidProof
  | InvalidInput
  | InvalidAmount
  | BatteryError
  | ResourceExhausted
  | InvalidState
  | VerificationError
  | StateUpdateError
  | LockAcquisitionError
  | ProofGenerationError
  | DataConversionError
deriving DecidableEq, Repr

/-- SystemError pairs an error kind with a message string. -/
structure SystemError where
  error_type : SystemErrorType
  message : String
deriving DecidableEq, Repr

/-- First-match association-list lookup (models HashMap::get). -/
def lookupAssoc {α : Type} (m : List (Hash256 × α)) (k : Hash256) : Option α :=
  match m with
  | [] => none
  | (k0, v0) :: rest => if k0 = k then some v0 else lookupAssoc rest k

/-- Replace-or-append insertion (models HashMap::insert). -/
def insertAssoc {α : Type} (m : List (Hash256 × α)) (k : Hash256) (v : α) :
    List (Hash256 × α) :=
  match m with
  | [] => [(k, v)]
  | (k0, v0) :: rest =>
    if k0 = k then (k0, v) :: rest else (k0, v0) :: insertAssoc rest k v

/-! ## Intermediate sparse Merkle tree
(src/core/hierarchy/intermediate/sparse_merkle_tree_i.rs)

The struct fields circuit_builder, virtual_cells, virtual_cell_count,
current_virtual_cell and current_virtual_cell_count belong to the external
plonky2 proof backend (out of scope, spec section 1); update only writes
fresh virtual targets into them and nothing the claims mention reads them,
so they are elided from the state.
-/

/-- MerkleNode, as in the source (virtual_cell is a plonky2 Target id). -/
structure MerkleNode where
  left : Option Hash256
  right : Option Hash256
  hash : Option Hash256
  virtual_cell : Option Nat
  value : Option Hash256
  is_leaf : Bool
  is_virtual : Bool
  is_empty : Bool
  data : Option Bytes
deriving DecidableEq, Repr

/-- SparseMerkleTreeI state (circuit fields elided, see above).
SparseMerkleTreeI.new gives root_hash all zeros, empty nodes, height 256. -/
structure SparseMerkleTreeI where
  root_hash : Hash256
  nodes : List (Hash256 × MerkleNode)
  height : Nat
deriving DecidableEq, Repr

namespace SparseMerkleTreeI

/-- SparseMerkleTreeI::new (circuit fields elided). -/
def new : SparseMerkleTreeI :=
  { root_hash := List.replicate 32 0, nodes := [], height := 256 }

/-- get_bit: extract bit index of the key, most-significant bit of each byte
first; bytes past the end of the key read as zero. -/
def get_bit (key : Bytes) (index : Nat) : Bool :=
  let byteIndex := index / 8
  let bitIndex := 7 - index % 8
  if byteIndex < key.length then ((key.getD byteIndex 0) >>> bitIndex) &&& 1 == 1
  else false

/-- hash_leaf: SHA-256 of key then value. -/
def hash_leaf (key value : Bytes) : Hash256 := sha256 (key ++ value)

/-- The recursion inside generate_merkle_path: walk the remaining levels from
the current node hash, key bit index i, collecting (child hash, bit) pairs. -/
def genPathGo (nodes : List (Hash256 × MerkleNode)) (key : Bytes) :
    Nat → Nat → Hash256 → Except SystemError (List (Hash256 × Bool))
  | 0, _, _ => .ok []
  | n + 1, i, current =>
    match lookupAssoc nodes current with
    | none => .error { error_type := .NotFound, message := "Node not found in path" }
    | some node =>
      if get_bit key i then
        match node.right with
        | none => .error { error_type := .NotFound, message := "Invalid path" }
        | some right_hash =>
          (genPathGo nodes key n (i + 1) right_hash).map ((right_hash, true) :: ·)
      else
        match node.left with
        | none => .error { error_type := .NotFound, message := "Invalid path" }
        | some left_hash =>
          (genPathGo nodes key n (i + 1) left_hash).map ((left_hash, false) :: ·)

/-- generate_merkle_path: walk height levels down from the root. -/
def generate_merkle_path (t : SparseMerkleTreeI) (key : Bytes) :
    Except SystemError (List (Hash256 × Bool)) :=
  genPathGo t.nodes key t.height 0 t.root_hash

/-- calculate_new_root: fold the path in reverse (leaf upward), hashing the
running hash with each recorded sibling in the recorded order. -/
def calculate_new_root (path : List (Hash256 × Bool)) (leaf_hash : Hash256) :
    Hash256 :=
  path.reverse.foldl
    (fun current sib =>
      if sib.2 then sha256 (current ++ sib.1) else sha256 (sib.1 ++ current))
    leaf_hash

/-- update: hash the leaf, generate the path for the key, recompute the root;
the circuit-builder writes between these steps touch only the elided proof
backend state.  On an error from generate_merkle_path nothing has been
mutated yet, so the error leaves the tree unchanged. -/
def update (t : SparseMerkleTreeI) (key value : Bytes) :
    Except SystemError SparseMerkleTreeI :=
  let leaf_hash := hash_leaf key value
  match generate_merkle_path t key with
  | .error e => .error e
  | .ok path => .ok { t with root_hash := calculate_new_root path leaf_hash }

/-- root accessor. -/
def root (t : SparseMerkleTreeI) : Hash256 := t.root_hash

/-- The state after calling update on a Rust &mut receiver: the new tree on
success, the unchanged tree when update returns an error. -/
def updateState (t : SparseMerkleTreeI) (key value : Bytes) : SparseMerkleTreeI :=
  match update t key value with
  | .ok t1 => t1
  | .error _ => t

end SparseMerkleTreeI

/-! ## Claim-side characterization of the intermediate tree update (C2, C6) -/

/-- One step of the leaf-to-root fold the spec describes: hash the running
hash with the recorded sibling, in the recorded order. -/
def chainStep (sib : Hash256 × Bool) (acc : Hash256) : Hash256 :=
  if sib.2 then sha256 (acc ++ sib.1) else sha256 (sib.1 ++ acc)

/-- Claim-side walk of the key path: starting from the current root, follow
one key bit per level through the node map; return the recorded path, or
none as soon as an expected node along the path is unavailable (absent from
the node map, or not referenced by its parent). -/
def specWalk (nodes : List (Hash256 × MerkleNode)) (key : Bytes) :
    Nat → Nat → Hash256 → Option (List (Hash256 × Bool))
  | 0, _, _ => some []
  | n + 1, i, current =>
    match lookupAssoc nodes current with
    | none => none
    | some node =>
      match (if SparseMerkleTreeI.get_bit key i then node.right else node.left) with
      | none => none
      | some child =>
        (specWalk nodes key n (i + 1) child).map
          ((child, SparseMerkleTreeI.get_bit key i) :: ·)

lemma specWalk_none_genPathGo (nodes : List (Hash256 × MerkleNode)) (key : Bytes) :
    ∀ n i cur, specWalk nodes key n i cur = none →
      ∃ e, SparseMerkleTreeI.genPathGo nodes key n i cur = .error e ∧
        e.error_type = SystemErrorType.NotFound := by
  intro n
  induction n with
  | zero => intro i cur h; simp [specWalk] at h
  | succ n ih =>
    intro i cur h
    rw [specWalk] at h
    rw [SparseMerkleTreeI.genPathGo]
    cases hl : lookupAssoc nodes cur with
    | none =>
      rw [hl] at h
      exact ⟨_, rfl, rfl⟩
    | some node =>
      rw [hl] at h
      dsimp only at h ⊢
      by_cases hb : SparseMerkleTreeI.get_bit key i
      · rw [if_pos hb] at h
        rw [if_pos hb]
        cases hr : node.right with
        | none =>
          rw [hr] at h
          exact ⟨_, rfl, rfl⟩
        | some child =>
          rw [hr] at h
          dsimp only at h ⊢
          rw [Option.map_eq_none'] at h
          obtain ⟨e, he, ht⟩ := ih (i + 1) child h
          exact ⟨e, by rw [he]; rfl, ht⟩
      · rw [if_neg hb] at h
        rw [if_neg hb]
        cases hr : node.left with
        | none =>
          rw [hr] at h
          exact ⟨_, rfl, rfl⟩
        | some child =>
          rw [hr] at h
          dsimp only at h ⊢
          rw [Option.map_eq_none'] at h
          obtain ⟨e, he, ht⟩ := ih (i + 1) child h
          exact ⟨e, by rw [he]; rfl, ht⟩

lemma specWalk_some_genPathGo (nodes : List (Hash256 × MerkleNode)) (key : Bytes) :
    ∀ n i cur p, specWalk nodes key n i cur = some p →
      SparseMerkleTreeI.genPathGo nodes key n i cur = .ok p := by
  intro n
  induction n with
  | zero =>
    intro i cur p h
    rw [specWalk] at h
    cases h
    rfl
  | succ n ih =>
    intro i cur p h
    rw [specWalk] at h
    rw [SparseMerkleTreeI.genPathGo]
    cases hl : lookupAssoc nodes cur with
    | none => rw [hl] at h; cases h
    | some node =>
      rw [hl] at h
      dsimp only at h ⊢
      by_cases hb : SparseMerkleTreeI.get_bit key i
      · rw [if_pos hb] at h
        rw [if_pos hb]
        cases hr : node.right with
        | none => rw [hr] at h; cases h
        | some child =>
          rw [hr] at h
          dsimp only at h ⊢
          rw [Option.map_eq_some'] at h
          obtain ⟨p0, hp0, hcons⟩ := h
          rw [ih (i + 1) child p0 hp0]
          rw [← hcons, hb]
          rfl
      · rw [if_neg hb] at h
        rw [if_neg hb]
        cases hr : node.left with
        | none => rw [hr] at h; cases h
        | some child =>
          rw [hr] at h
          dsimp only at h ⊢
          rw [Option.map_eq_some'] at h
          obtain ⟨p0, hp0, hcons⟩ := h
          rw [ih (i + 1) child p0 hp0]
          rw [← hcons]
          have hb2 : SparseMerkleTreeI.get_bit key i = false := by
            cases hbv : SparseMerkleTreeI.get_bit key i
            · rfl
            · exact absurd hbv hb
          rw [hb2]
          rfl

lemma calculate_new_root_eq_foldr (path : List (Hash256 × Bool)) (leaf : Hash256) :
    SparseMerkleTreeI.calculate_new_root path leaf = List.foldr chainStep leaf path := by
  rw [SparseMerkleTreeI.calculate_new_root, List.foldl_reverse]
  rfl

lemma get_bit_msb_first (k : Bytes) (i : Nat) :
    SparseMerkleTreeI.get_bit k i
      = decide ((k.getD (i / 8) 0) / 2 ^ (7 - i % 8) % 2 = 1) := by
  rw [SparseMerkleTreeI.get_bit]
  by_cases hlt : i / 8 < k.length
  · simp only [hlt, if_true, Nat.shiftRight_eq_div_pow, Nat.and_one_is_mod]
    rw [Bool.eq_iff_iff]
    simp
  · simp only [hlt, if_false]
    rw [List.getD_eq_default _ _ (Nat.le_of_not_lt hlt)]
    simp

/-- C2: for every tree state, key and value, update derives the key path one
bit per level, most-significant bit of each key byte first, over the tree
height (256 for a freshly constructed tree); it fails, with an error of kind
NotFound, exactly when the walk from the current root along that path hits a
node that is unavailable in the node map; otherwise it succeeds and the new
root is the fold of the recorded path hashes from the leaf hash upward. -/
theorem C2_update_characterization (t : SparseMerkleTreeI) (key value : Bytes) :
    (∀ k i, SparseMerkleTreeI.get_bit k i
        = decide ((k.getD (i / 8) 0) / 2 ^ (7 - i % 8) % 2 = 1)) ∧
    SparseMerkleTreeI.new.height = 256 ∧
    (match specWalk t.nodes key t.height 0 t.root_hash with
     | none => ∃ e, SparseMerkleTreeI.update t key value = .error e ∧
         e.error_type = SystemErrorType.NotFound
     | some path => SparseMerkleTreeI.update t key value =
         .ok { t with root_hash :=
                 List.foldr chainStep (SparseMerkleTreeI.hash_leaf key value) path }) := by
  refine ⟨get_bit_msb_first, rfl, ?_⟩
  cases hw : specWalk t.nodes key t.height 0 t.root_hash with
  | none =>
    obtain ⟨e, he, ht⟩ := specWalk_none_genPathGo t.nodes key t.height 0 t.root_hash hw
    refine ⟨e, ?_, ht⟩
    rw [SparseMerkleTreeI.update, SparseMerkleTreeI.generate_merkle_path, he]
  | some path =>
    have hok := specWalk_some_genPathGo t.nodes key t.height 0 t.root_hash path hw
    dsimp only
    rw [SparseMerkleTreeI.update, SparseMerkleTreeI.generate_merkle_path, hok]
    simp only [calculate_new_root_eq_foldr]

/-! ## Idempotence of update (C6) -/

def zero32 : Hash256 := List.replicate 32 0

def one32 : Hash256 := List.replicate 32 1

/-- An interior node whose left child pointer is h. -/
def nodeLeft (h : Hash256) : MerkleNode :=
  { left := some h, right := none, hash := none, virtual_cell := none,
    value := none, is_leaf := false, is_virtual := false, is_empty := false,
    data := none }

/-- Tree state refuting idempotence: height 1; the node map holds the zero
root (left child the zero hash) and, prepopulated, the root the first update
will produce (left child a different hash), so that both the first and the
second update of the empty key succeed but walk different paths. -/
def exTreeC6 : SparseMerkleTreeI :=
  { root_hash := zero32,
    nodes := [(zero32, nodeLeft zero32),
              (sha256 (zero32 ++ sha256 ([] ++ [])), nodeLeft one32)],
    height := 1 }

/-- C6 counterexample: on exTreeC6 both applications of update with the
identical key-value pair succeed, yet the root after the second update
differs from the root after the first. -/
theorem C6_counterexample :
    (SparseMerkleTreeI.update exTreeC6 [] []).isOk = true ∧
    (SparseMerkleTreeI.update (SparseMerkleTreeI.updateState exTreeC6 [] []) [] []).isOk
      = true ∧
    ¬ ((SparseMerkleTreeI.updateState
          (SparseMerkleTreeI.updateState exTreeC6 [] []) [] []).root_hash
        = (SparseMerkleTreeI.updateState exTreeC6 [] []).root_hash) := by
  refine ⟨by decide, by decide, by decide⟩

/-- C6 amended: update never modifies the node map (or the height), so a
repeated identical update regenerates its path from the new root against the
unchanged map; whenever that second application fails, the root is left
unchanged, i.e. the root after the second update equals the root after the
first.  (When the second application succeeds the roots can differ, as the
counterexample shows.) -/
theorem C6_weak_idempotence (t : SparseMerkleTreeI) (key value : Bytes)
    (h2 : (SparseMerkleTreeI.update
            (SparseMerkleTreeI.updateState t key value) key value).isOk = false) :
    (SparseMerkleTreeI.updateState t key value).nodes = t.nodes ∧
    (SparseMerkleTreeI.updateState t key value).height = t.height ∧
    (SparseMerkleTreeI.updateState
        (SparseMerkleTreeI.updateState t key value) key value).root_hash
      = (SparseMerkleTreeI.updateState t key value).root_hash := by
  have hnodes : (SparseMerkleTreeI.updateState t key value).nodes = t.nodes ∧
      (SparseMerkleTreeI.updateState t key value).height = t.height := by
    rw [SparseMerkleTreeI.updateState, SparseMerkleTreeI.update]
    cases hp : SparseMerkleTreeI.generate_merkle_path t key with
    | error e => exact ⟨rfl, rfl⟩
    | ok path => exact ⟨rfl, rfl⟩
  refine ⟨hnodes.1, hnodes.2, ?_⟩
  rw [SparseMerkleTreeI.updateState]
  cases hu : SparseMerkleTreeI.update (SparseMerkleTreeI.updateState t key value)
      key value with
  | error e => rfl
  | ok t2 => rw [hu] at h2; cases h2

/-- Tree state for the weak-idempotence witness: only the zero root is in the
node map, so the first update succeeds and the second fails. -/
def exTreeC6w : SparseMerkleTreeI :=
  { root_hash := zero32, nodes := [(zero32, nodeLeft zero32)], height := 1 }

/-- Witness for C6_weak_idempotence at the concrete state exTreeC6w. -/
theorem C6_weak_idempotence_witness :
    (SparseMerkleTreeI.updateState exTreeC6w [] []).nodes = exTreeC6w.nodes ∧
    (SparseMerkleTreeI.updateState exTreeC6w [] []).height = exTreeC6w.height ∧
    (SparseMerkleTreeI.updateState
        (SparseMerkleTreeI.updateState exTreeC6w [] []) [] []).root_hash
      = (SparseMerkleTreeI.updateState exTreeC6w [] []).root_hash :=
  C6_weak_idempotence exTreeC6w [] [] (by decide)

/-! ## Bag of cells and proof artifact (external serialization format) -/

/-- Modelled from the spec: a cell of the bag-of-cells container, carrying
its payload bytes (spec section 6: containers of content-addressed cells
with a reference graph; the exact binary layout is external). -/
structure Cell where
  data : Bytes
deriving DecidableEq, Repr

/-- Modelled from the spec: the bag-of-cells container BOC
(src/core/types/boc.rs is not under src/).  The embedded code reads only its
list of cells (response-manager size accounting) and its ordered list of
root byte strings (root-contract deserialization); spec section 6:
containers expose an ordered list of root cells. -/
structure BOC where
  cells : List Cell
  roots : List Bytes
deriving DecidableEq, Repr

/-- Modelled from the spec: the proof artifact ZkProof
(src/core/zkps/proof.rs is not under src/).  Spec section 3: proof bytes, a
sequence of public inputs inspected for binding checks, a commitment root
and metadata; the storage node compares public_inputs against the
one-element sequence holding the content hash of the object. -/
structure ZkProof where
  proof_data : Bytes
  public_inputs : List Bytes
  merkle_root : Bytes
  timestamp : Nat
deriving DecidableEq, Repr

/-! ## Root contract (src/core/hierarchy/root/root_contract.rs) -/

/-- Modelled from the spec: the root-layer sparse Merkle tree
SparseMerkleTreeR (src/core/hierarchy/root/sparse_merkle_tree_r.rs is not
under src/).  The root contract only needs three capabilities from it — a
fresh tree (SparseMerkleTreeR::new, used by new and deserialize), an update
keyed by contract address (update_global_tree, spec section 4.2: folds the
intermediate root into the global tree), and the global root accessor
(get_global_root_hash).  They are abstracted over an arbitrary tree state
type T. -/
structure RootTreeOps (T : Type) where
  newTree : T
  update_global_tree : T → Hash256 → Hash256 → Except SystemError T
  get_global_root_hash : T → Hash256

/-- plonky2 MerkleProof (external crate); the contract only ever builds one
with an empty siblings list. -/
structure MerkleProofR where
  siblings : List Hash256
deriving DecidableEq, Repr

/-- RootContract state, with the global tree abstracted as T. -/
structure RootContract (T : Type) where
  global_tree : T
  intermediate_roots : List (Hash256 × Hash256)
  epoch : Nat
  epoch_duration : Nat
  last_submission : Nat
  verify_settlement_state : Bool
  verify_intermediate_state : Bool
  verify_channel_state : Bool
  verify_transaction_state : Bool
  verify_storage_state : Bool
  verify_global_state : Bool
  verify_root_state : Bool
  submit_settlement : Bool

namespace RootContract

/-- RootContract::new. -/
def new {T : Type} (ops : RootTreeOps T) (epoch_duration : Nat) : RootContract T :=
  { global_tree := ops.newTree
    intermediate_roots := []
    epoch := 0
    epoch_duration := epoch_duration
    last_submission := 0
    verify_settlement_state := true
    verify_intermediate_state := false
    verify_channel_state := false
    verify_transaction_state := false
    verify_storage_state := false
    verify_global_state := false
    verify_root_state := false
    submit_settlement := true }

/-- RootContract::process_intermediate_root: insert into intermediate_roots,
then fold the root into the global tree; a tree error propagates after the
insertion has happened (Rust &mut receiver). -/
def process_intermediate_root {T : Type} (ops : RootTreeOps T) (c : RootContract T)
    (contract_addr root : Hash256) : RootContract T × Option SystemError :=
  let c1 := { c with
    intermediate_roots := insertAssoc c.intermediate_roots contract_addr root }
  match ops.update_global_tree c1.global_tree contract_addr root with
  | .ok t2 => ({ c1 with global_tree := t2 }, none)
  | .error e => (c1, some e)

/-- RootContract::try_submit_global_root.  The subtraction
now - last_submission is u64; wrapSub64 gives the release (wrapping)
semantics.  On passing the gate the epoch and bookkeeping advance first and
only then is the capability flag consulted. -/
def try_submit_global_root {T : Type} (ops : RootTreeOps T) (c : RootContract T)
    (now : Nat) : RootContract T × Option (Hash256 × MerkleProofR) :=
  if wrapSub64 now c.last_submission < c.epoch_duration then (c, none)
  else
    let root := ops.get_global_root_hash c.global_tree
    let proof : MerkleProofR := { siblings := [] }
    let c1 := { c with
      epoch := wrapSucc64 c.epoch
      last_submission := now
      verify_settlement_state := true
      submit_settlement := true }
    if !c.verify_global_state then (c1, none)
    else (c1, some (root, proof))

/-- Little-endian integer of the first eight bytes (u64::from_le_bytes). -/
def from_le_bytes8 (b : Bytes) : Nat :=
  (b.take 8).foldr (fun x acc => x + 256 * acc) 0

/-- RootContract::deserialize: parse the 26-byte header of the first BOC
root; every verify flag except verify_settlement_state comes back false. -/
def deserialize {T : Type} (ops : RootTreeOps T) (boc : BOC) :
    Except SystemError (RootContract T) :=
  match boc.roots.head? with
  | none => .error { error_type := .NotFound, message := "Empty BOC" }
  | some state_data =>
    if state_data.length < 26 then
      .error { error_type := .NotFound, message := "Invalid state data length" }
    else
      .ok { global_tree := ops.newTree
            intermediate_roots := []
            epoch := from_le_bytes8 (state_data.take 8)
            epoch_duration := from_le_bytes8 ((state_data.drop 8).take 8)
            last_submission := from_le_bytes8 ((state_data.drop 16).take 8)
            verify_settlement_state := state_data.getD 24 0 != 0
            verify_intermediate_state := false
            verify_channel_state := false
            verify_transaction_state := false
            verify_storage_state := false
            verify_global_state := false
            verify_root_state := false
            submit_settlement := state_data.getD 25 0 != 0 }

end RootContract

/-- Trivial tree instantiation used by concrete witnesses. -/
def unitOps : RootTreeOps Unit :=
  { newTree := ()
    update_global_tree := fun _ _ _ => .ok ()
    get_global_root_hash := fun _ => zero32 }

/-- C1: for every contract state and timestamp now, if the (wrapping u64)
difference now - last_submission is below epoch_duration then
try_submit_global_root returns none and leaves the whole state unchanged;
otherwise it increments epoch by exactly one, sets last_submission to now,
and returns the current global root with an (empty-sibling) certificate if
and only if the verify_global_state capability flag is enabled — with the
flag disabled the bookkeeping still advances but nothing is returned. -/
theorem C1_epoch_gate {T : Type} (ops : RootTreeOps T) (c : RootContract T)
    (now : Nat) (hepoch : c.epoch + 1 < U64MOD) :
    (wrapSub64 now c.last_submission < c.epoch_duration →
      RootContract.try_submit_global_root ops c now = (c, none)) ∧
    (¬ wrapSub64 now c.last_submission < c.epoch_duration →
      (RootContract.try_submit_global_root ops c now).1.epoch = c.epoch + 1 ∧
      (RootContract.try_submit_global_root ops c now).1.last_submission = now ∧
      ((RootContract.try_submit_global_root ops c now).2
          = some (ops.get_global_root_hash c.global_tree, { siblings := [] })
        ↔ c.verify_global_state = true) ∧
      (c.verify_global_state = false →
        (RootContract.try_submit_global_root ops c now).2 = none)) := by
  constructor
  · intro hlt
    rw [RootContract.try_submit_global_root, if_pos hlt]
  · intro hge
    rw [RootContract.try_submit_global_root, if_neg hge]
    cases hflag : c.verify_global_state <;>
      simp [wrapSucc64, Nat.mod_eq_of_lt hepoch]

/-- Witness for C1_epoch_gate on a freshly built contract at a concrete
timestamp below the epoch duration. -/
theorem C1_epoch_gate_witness :
    ((RootContract.new unitOps 10).epoch + 1 < U64MOD) ∧
    ((wrapSub64 5 (RootContract.new unitOps 10).last_submission
        < (RootContract.new unitOps 10).epoch_duration →
      RootContract.try_submit_global_root unitOps (RootContract.new unitOps 10) 5
        = (RootContract.new unitOps 10, none)) ∧
    (¬ wrapSub64 5 (RootContract.new unitOps 10).last_submission
        < (RootContract.new unitOps 10).epoch_duration →
      (RootContract.try_submit_global_root unitOps (RootContract.new unitOps 10) 5).1.epoch
        = (RootContract.new unitOps 10).epoch + 1 ∧
      (RootContract.try_submit_global_root unitOps
          (RootContract.new unitOps 10) 5).1.last_submission = 5 ∧
      ((RootContract.try_submit_global_root unitOps (RootContract.new unitOps 10) 5).2
          = some (unitOps.get_global_root_hash (RootContract.new unitOps 10).global_tree,
                  { siblings := [] })
        ↔ (RootContract.new unitOps 10).verify_global_state = true) ∧
      ((RootContract.new unitOps 10).verify_global_state = false →
        (RootContract.try_submit_global_root unitOps
            (RootContract.new unitOps 10) 5).2 = none))) :=
  ⟨by decide, C1_epoch_gate unitOps (RootContract.new unitOps 10) 5 (by decide)⟩

/-- States reachable from new or deserialize by any sequence of
process_intermediate_root and try_submit_global_root calls. -/
inductive Reachable {T : Type} (ops : RootTreeOps T) : RootContract T → Prop where
  | fromNew : ∀ d, Reachable ops (RootContract.new ops d)
  | fromDeserialize : ∀ (boc : BOC) c, RootContract.deserialize ops boc = .ok c →
      Reachable ops c
  | processStep : ∀ c a r, Reachable ops c →
      Reachable ops (RootContract.process_intermediate_root ops c a r).1
  | submitStep : ∀ c now, Reachable ops c →
      Reachable ops (RootContract.try_submit_global_root ops c now).1

lemma try_submit_none_of_flag_false {T : Type} (ops : RootTreeOps T)
    (c : RootContract T) (now : Nat) (hflag : c.verify_global_state = false) :
    (RootContract.try_submit_global_root ops c now).2 = none := by
  rw [RootContract.try_submit_global_root]
  by_cases hlt : wrapSub64 now c.last_submission < c.epoch_duration
  · rw [if_pos hlt]
  · rw [if_neg hlt]
    simp [hflag]

/-- C8: every state reachable from RootContract::new or
RootContract::deserialize by process_intermediate_root and
try_submit_global_root calls has verify_global_state = false (no operation
ever sets it), and consequently try_submit_global_root never returns a
(root, certificate) value on a reachable state. -/
theorem C8_verify_global_state_invariant {T : Type} (ops : RootTreeOps T)
    (c : RootContract T) (now : Nat) (h : Reachable ops c) :
    c.verify_global_state = false ∧
    (RootContract.try_submit_global_root ops c now).2 = none := by
  have hflag : c.verify_global_state = false := by
    induction h with
    | fromNew d => rfl
    | fromDeserialize boc c0 hde =>
      rw [RootContract.deserialize] at hde
      cases hh : boc.roots.head? with
      | none => rw [hh] at hde; cases hde
      | some state_data =>
        rw [hh] at hde
        dsimp only at hde
        by_cases hlen : state_data.length < 26
        · rw [if_pos hlen] at hde; cases hde
        · rw [if_neg hlen] at hde
          cases hde
          rfl
    | processStep c0 a r _ ih =>
      rw [RootContract.process_intermediate_root]
      cases ops.update_global_tree
          { c0 with intermediate_roots :=
              insertAssoc c0.intermediate_roots a r }.global_tree a r with
      | ok t2 => exact ih
      | error e => exact ih
    | submitStep c0 now0 _ ih =>
      rw [RootContract.try_submit_global_root]
      by_cases hlt : wrapSub64 now0 c0.last_submission < c0.epoch_duration
      · rw [if_pos hlt]; exact ih
      · rw [if_neg hlt]
        cases hf : c0.verify_global_state with
        | false => simp [hf]
        | true => rw [hf] at ih; cases ih
  exact ⟨hflag, try_submit_none_of_flag_false ops c now hflag⟩

/-- Witness for C8_verify_global_state_invariant: a freshly built contract,
stepped once through each operation, still has the flag off and submits
nothing. -/
theorem C8_verify_global_state_invariant_witness :
    (RootContract.process_intermediate_root unitOps
        (RootContract.new unitOps 3) one32 one32).1.verify_global_state = false ∧
    (RootContract.try_submit_global_root unitOps
        (RootContract.process_intermediate_root unitOps
          (RootContract.new unitOps 3) one32 one32).1 7).2 = none :=
  C8_verify_global_state_invariant unitOps _ 7
    (Reachable.processStep _ one32 one32 (Reachable.fromNew 3))

/-- Contract state refuting C10: last_submission is the largest u64, the
epoch duration is 2; at now = 0 (strictly earlier than last_submission) the
wrapped difference is 1, below the epoch duration, so the gate does not
pass. -/
def c10state : RootContract Unit :=
  { global_tree := ()
    intermediate_roots := []
    epoch := 0
    epoch_duration := 2
    last_submission := U64MOD - 1
    verify_settlement_state := true
    verify_intermediate_state := false
    verify_channel_state := false
    verify_transaction_state := false
    verify_storage_state := false
    verify_global_state := false
    verify_root_state := false
    submit_settlement := true }

/-- C10 counterexample: a timestamp strictly earlier than last_submission
for which the wrapped difference is small, so the epoch gate does not pass:
try_submit_global_root returns none and advances neither epoch nor
last_submission, against the claim that the gate passes for every earlier
timestamp. -/
theorem C10_counterexample :
    0 < c10state.last_submission ∧
    wrapSub64 0 c10state.last_submission < c10state.epoch_duration ∧
    (RootContract.try_submit_global_root unitOps c10state 0).2 = none ∧
    (RootContract.try_submit_global_root unitOps c10state 0).1.epoch
      = c10state.epoch ∧
    (RootContract.try_submit_global_root unitOps c10state 0).1.last_submission
      = c10state.last_submission := by
  refine ⟨by decide, by decide, ?_, ?_, ?_⟩ <;> decide

/-- C10 amended: for now strictly earlier than last_submission the u64
subtraction now - last_submission underflows (a panic in debug builds);
under release (wrapping) semantics the wrapped difference equals
2^64 - (last_submission - now), and the epoch gate passes precisely when
epoch_duration ≤ that wrapped difference — not for every earlier
timestamp. -/
theorem C10_amended_underflow_gate {T : Type} (ops : RootTreeOps T)
    (c : RootContract T) (now : Nat) (hnow : now < c.last_submission)
    (hlast : c.last_submission < U64MOD) :
    wrapSub64 now c.last_submission = U64MOD - (c.last_submission - now) ∧
    ((RootContract.try_submit_global_root ops c now).1.last_submission = now ↔
      c.epoch_duration ≤ U64MOD - (c.last_submission - now)) := by
  have hU : U64MOD = 18446744073709551616 := by norm_num [U64MOD]
  have harith : wrapSub64 now c.last_submission
      = U64MOD - (c.last_submission - now) := by
    rw [wrapSub64]
    have h1 : now + U64MOD - c.last_submission
        = U64MOD - (c.last_submission - now) := by omega
    rw [h1, Nat.mod_eq_of_lt (by omega)]
  refine ⟨harith, ?_⟩
  rw [RootContract.try_submit_global_root]
  by_cases hlt : wrapSub64 now c.last_submission < c.epoch_duration
  · rw [if_pos hlt]
    rw [harith] at hlt
    dsimp only
    constructor
    · intro hset
      omega
    · intro hge
      omega
  · rw [if_neg hlt]
    rw [harith] at hlt
    constructor
    · intro _
      omega
    · intro _
      cases c.verify_global_state <;> simp

/-- Contract state for the C10 amended witness: last_submission 5, epoch
duration 3. -/
def c10wstate : RootContract Unit :=
  { c10state with epoch_duration := 3, last_submission := 5 }

/-- Witness for C10_amended_underflow_gate: last_submission 5, now 4, epoch
duration 3; the wrapped difference is 2^64 - 1 and the gate passes. -/
theorem C10_amended_underflow_gate_witness :
    (4 < c10wstate.last_submission ∧ c10wstate.last_submission < U64MOD) ∧
    (wrapSub64 4 c10wstate.last_submission
        = U64MOD - (c10wstate.last_submission - 4) ∧
      ((RootContract.try_submit_global_root unitOps c10wstate 4).1.last_submission = 4 ↔
        c10wstate.epoch_duration ≤ U64MOD - (c10wstate.last_submission - 4))) :=
  ⟨⟨by decide, by decide⟩,
    C10_amended_underflow_gate unitOps c10wstate 4 (by decide) (by decide)⟩

/-! ## Storage node (src/core/storage_node/storage_node_contract.rs) -/

/-- Modelled from the spec: BatteryChargingSystem
(src/core/storage_node/battery/charging.rs is not under src/).  Spec
sections 4.3 and 5: store first debits the metered battery resource, one
processing unit per admission attempt, synchronously and non-refundably; an
insufficient charge is a resource-exhaustion error and the charge is left
unchanged. -/
structure BatteryChargingSystem where
  charge : Nat
deriving DecidableEq, Repr

/-- One processing unit debited per admission attempt (spec section 4.3). -/
def PROCESSING_COST : Nat := 1

/-- Modelled from the spec: charge_for_processing debits one processing
unit, or fails with resource exhaustion leaving the charge unchanged. -/
def charge_for_processing (b : BatteryChargingSystem) :
    Except SystemError BatteryChargingSystem :=
  if b.charge < PROCESSING_COST then
    .error { error_type := .ResourceExhausted
             message := "Insufficient battery charge" }
  else
    .ok { charge := b.charge - PROCESSING_COST }

/-- StorageNode state: the stored objects and proofs keyed by content hash,
and the battery; config and peer set are carried by the source struct but
never read by the embedded operations. -/
structure StorageNode where
  node_id : Hash256
  stake : Nat
  stored_bocs : List (Hash256 × BOC)
  stored_proofs : List (Hash256 × ZkProof)
  battery_system : BatteryChargingSystem
deriving DecidableEq, Repr

namespace StorageNode

/-- StorageNode::new: construction requires stake at least 1000; the battery
starts from the initial stake (BatteryChargingSystem::new(initial_stake)). -/
def new (node_id : Hash256) (initial_stake : Nat) :
    Except SystemError StorageNode :=
  if initial_stake < 1000 then
    .error { error_type := .InvalidAmount, message := "Insufficient initial stake" }
  else
    .ok { node_id := node_id
          stake := initial_stake
          stored_bocs := []
          stored_proofs := []
          battery_system := { charge := initial_stake } }

/-- hash_boc_internal: SHA-256 of the bincode serialization of the BOC; the
bincode encoder is an external crate, abstracted as the serialize
argument. -/
def hash_boc_internal (serialize : BOC → Bytes) (boc : BOC) : Hash256 :=
  sha256 (serialize boc)

/-- verify_proof_internal: the admission binding check.  Returns Ok false
unless public_inputs is exactly one element equal to the BOC content hash;
the cryptographic verification of proof_data against a verification key is
commented out in the source, which then returns Ok true unconditionally. -/
def verify_proof_internal (serialize : BOC → Bytes) (node : StorageNode)
    (proof : ZkProof) (boc : BOC) : Except SystemError Bool :=
  let boc_hash := hash_boc_internal serialize boc
  if proof.public_inputs.length ≠ 1 ∨ proof.public_inputs.getD 0 [] ≠ boc_hash then
    .ok false
  else
    .ok true

/-- store_update: debit the battery (a battery error exits before
verification and is relabelled BatteryError), run the binding check (a
failed check exits with InvalidProof and the battery already debited), then
insert the object and the proof under the content hash. -/
def store_update (serialize : BOC → Bytes) (node : StorageNode) (boc : BOC)
    (proof : ZkProof) : Except SystemError Unit × StorageNode :=
  match charge_for_processing node.battery_system with
  | .error e =>
    (.error { error_type := .BatteryError, message := e.message }, node)
  | .ok bat1 =>
    let node1 := { node with battery_system := bat1 }
    match verify_proof_internal serialize node1 proof boc with
    | .error e => (.error e, node1)
    | .ok ok =>
      if !ok then
        (.error { error_type := .InvalidProof, message := "Invalid proof" }, node1)
      else
        let boc_id := hash_boc_internal serialize boc
        (.ok (),
          { node1 with
            stored_bocs := insertAssoc node1.stored_bocs boc_id boc
            stored_proofs := insertAssoc node1.stored_proofs boc_id proof })

end StorageNode

lemma list_ne_singleton_iff (l : List Bytes) (h : Bytes) :
    l ≠ [h] ↔ (l.length ≠ 1 ∨ l.getD 0 [] ≠ h) := by
  cases l with
  | nil => simp
  | cons a t => cases t <;> simp

lemma lookupAssoc_insertAssoc {α : Type} (m : List (Hash256 × α))
    (k : Hash256) (v : α) : lookupAssoc (insertAssoc m k v) k = some v := by
  induction m with
  | nil => rw [insertAssoc, lookupAssoc, if_pos rfl]
  | cons p rest ih =>
    obtain ⟨k0, v0⟩ := p
    rw [insertAssoc]
    by_cases hk : k0 = k
    · rw [if_pos hk, lookupAssoc, if_pos hk]
    · rw [if_neg hk, lookupAssoc, if_neg hk]
      exact ih

/-- C3: for a node with sufficient battery charge, if proof.public_inputs is
not exactly the one-element sequence holding the content hash of the object,
store_update fails with InvalidProof, both storage maps are unchanged (so
the object/proof pair is absent afterward whenever it was absent before),
and the battery debit has already been applied and is not refunded. -/
theorem C3_invalid_proof_rejected (serialize : BOC → Bytes) (node : StorageNode)
    (boc : BOC) (proof : ZkProof)
    (hbat : PROCESSING_COST ≤ node.battery_system.charge)
    (hmismatch : proof.public_inputs
      ≠ [StorageNode.hash_boc_internal serialize boc]) :
    (∃ e, (StorageNode.store_update serialize node boc proof).1 = .error e ∧
      e.error_type = SystemErrorType.InvalidProof) ∧
    (StorageNode.store_update serialize node boc proof).2.stored_bocs
      = node.stored_bocs ∧
    (StorageNode.store_update serialize node boc proof).2.stored_proofs
      = node.stored_proofs ∧
    (StorageNode.store_update serialize node boc proof).2.battery_system.charge
      = node.battery_system.charge - PROCESSING_COST ∧
    (StorageNode.store_update serialize node boc proof).2.battery_system.charge
      < node.battery_system.charge := by
  have hcharge : charge_for_processing node.battery_system
      = .ok { charge := node.battery_system.charge - PROCESSING_COST } := by
    rw [charge_for_processing, if_neg (by omega)]
  have hverify : ∀ n : StorageNode,
      StorageNode.verify_proof_internal serialize n proof boc = .ok false := by
    intro n
    simp only [StorageNode.verify_proof_internal]
    rw [if_pos ((list_ne_singleton_iff _ _).mp hmismatch)]
  have hresult : StorageNode.store_update serialize node boc proof
      = (.error { error_type := .InvalidProof, message := "Invalid proof" },
         { node with battery_system :=
             { charge := node.battery_system.charge - PROCESSING_COST } }) := by
    simp only [StorageNode.store_update, hcharge, hverify]
    rfl
  rw [hresult]
  have hP : PROCESSING_COST = 1 := rfl
  exact ⟨⟨_, rfl, rfl⟩, rfl, rfl, rfl, by dsimp only; omega⟩

/-- Constant serializer used by the storage-node witnesses. -/
def constSerialize : BOC → Bytes := fun _ => []

/-- Concrete storage node with charge 1000 used by the witnesses. -/
def nodeW : StorageNode :=
  { node_id := zero32
    stake := 1000
    stored_bocs := []
    stored_proofs := []
    battery_system := { charge := 1000 } }

/-- Concrete empty BOC used by the witnesses. -/
def bocW : BOC := { cells := [], roots := [] }

/-- Concrete proof with empty public inputs (a binding mismatch). -/
def proofW3 : ZkProof :=
  { proof_data := [], public_inputs := [], merkle_root := [], timestamp := 0 }

/-- Witness for C3_invalid_proof_rejected at concrete inputs. -/
theorem C3_invalid_proof_rejected_witness :
    (∃ e, (StorageNode.store_update constSerialize nodeW bocW proofW3).1
        = .error e ∧ e.error_type = SystemErrorType.InvalidProof) ∧
    (StorageNode.store_update constSerialize nodeW bocW proofW3).2.stored_bocs
      = nodeW.stored_bocs ∧
    (StorageNode.store_update constSerialize nodeW bocW proofW3).2.stored_proofs
      = nodeW.stored_proofs ∧
    (StorageNode.store_update constSerialize nodeW bocW proofW3).2.battery_system.charge
      = nodeW.battery_system.charge - PROCESSING_COST ∧
    (StorageNode.store_update constSerialize nodeW bocW proofW3).2.battery_system.charge
      < nodeW.battery_system.charge :=
  C3_invalid_proof_rejected constSerialize nodeW bocW proofW3 (by decide) (by decide)

/-- C9: when public_inputs is exactly the one-element sequence holding the
content hash of the object, the internal proof check returns true whatever
the proof_data bytes are — no cryptographic verification of the proof is
performed — and store_update, given sufficient battery charge, succeeds and
persists both the object and the proof under the content hash. -/
theorem C9_binding_only_verification (serialize : BOC → Bytes)
    (node : StorageNode) (boc : BOC) (proof : ZkProof)
    (hbat : PROCESSING_COST ≤ node.battery_system.charge)
    (hmatch : proof.public_inputs
      = [StorageNode.hash_boc_internal serialize boc]) :
    StorageNode.verify_proof_internal serialize node proof boc = .ok true ∧
    (StorageNode.store_update serialize node boc proof).1 = .ok () ∧
    lookupAssoc (StorageNode.store_update serialize node boc proof).2.stored_bocs
        (StorageNode.hash_boc_internal serialize boc) = some boc ∧
    lookupAssoc (StorageNode.store_update serialize node boc proof).2.stored_proofs
        (StorageNode.hash_boc_internal serialize boc) = some proof := by
  have hcharge : charge_for_processing node.battery_system
      = .ok { charge := node.battery_system.charge - PROCESSING_COST } := by
    rw [charge_for_processing, if_neg (by omega)]
  have hverify : ∀ n : StorageNode,
      StorageNode.verify_proof_internal serialize n proof boc = .ok true := by
    intro n
    simp only [StorageNode.verify_proof_internal, hmatch]
    rw [if_neg (by simp)]
  have hresult : StorageNode.store_update serialize node boc proof
      = (.ok (),
         { node with
           stored_bocs := insertAssoc node.stored_bocs
             (StorageNode.hash_boc_internal serialize boc) boc
           stored_proofs := insertAssoc node.stored_proofs
             (StorageNode.hash_boc_internal serialize boc) proof
           battery_system :=
             { charge := node.battery_system.charge - PROCESSING_COST } }) := by
    simp only [StorageNode.store_update, hcharge, hverify]
    rfl
  rw [hresult]
  exact ⟨hverify node, rfl, lookupAssoc_insertAssoc _ _ _,
    lookupAssoc_insertAssoc _ _ _⟩

/-- Concrete proof whose single public input is the content hash, with
nonempty proof_data that nothing checks. -/
def proofW9 : ZkProof :=
  { proof_data := [7, 7, 7]
    public_inputs := [StorageNode.hash_boc_internal constSerialize bocW]
    merkle_root := []
    timestamp := 0 }

/-- Witness for C9_binding_only_verification at concrete inputs. -/
theorem C9_binding_only_verification_witness :
    StorageNode.verify_proof_internal constSerialize nodeW proofW9 bocW
      = .ok true ∧
    (StorageNode.store_update constSerialize nodeW bocW proofW9).1 = .ok () ∧
    lookupAssoc
        (StorageNode.store_update constSerialize nodeW bocW proofW9).2.stored_bocs
        (StorageNode.hash_boc_internal constSerialize bocW) = some bocW ∧
    lookupAssoc
        (StorageNode.store_update constSerialize nodeW bocW proofW9).2.stored_proofs
        (StorageNode.hash_boc_internal constSerialize bocW) = some proofW9 :=
  C9_binding_only_verification constSerialize nodeW bocW proofW9 (by decide) rfl

/-! ## Bitcoin state converter
(src/core/hierarchy/client/wallet_extension/bitcoin_b2o/bitcoin_state_converter.rs) -/

/-- OverpassBitcoinState, as in the source (u64 fields as Nat; channel_id is
32 bytes, pubkey_hash 20 bytes). -/
structure OverpassBitcoinState where
  channel_id : Hash256
  state_root : Hash256
  current_balance : Nat
  nonce : Nat
  sequence : Nat
  pubkey_hash : Bytes
  merkle_proof : Bytes
deriving DecidableEq, Repr

/-- verify_state_constraints: the channel id must stay constant, the
sequence must increment by exactly one (u64 addition, wrapping under release
semantics), and the pubkey hash must stay constant. -/
def verify_state_constraints (prev_state new_state : OverpassBitcoinState) :
    Except SystemError Bool :=
  if prev_state.channel_id ≠ new_state.channel_id then .ok false
  else if new_state.sequence ≠ (prev_state.sequence + 1) % U64MOD then .ok false
  else if prev_state.pubkey_hash ≠ new_state.pubkey_hash then .ok false
  else .ok true

/-- Little-endian 8-byte encoding (u64::to_le_bytes). -/
def le8 (n : Nat) : Bytes :=
  [n % 256, (n >>> 8) % 256, (n >>> 16) % 256, (n >>> 24) % 256,
   (n >>> 32) % 256, (n >>> 40) % 256, (n >>> 48) % 256, (n >>> 56) % 256]

/-- verify_state_transition: the structural constraints are checked first
and a failure returns Ok false before anything else runs; then the
state-root transition is checked against the shared state tree; then the
proof backend is consulted on prev_root, new_root and the new balance bytes,
with a backend error relabelled VerificationError.  The tree check
(SparseMerkleTreeWasm::verify_root_transition, repository code not under
src/) and the plonky2 proof backend (external collaborator, spec section 6)
are abstracted as the rootTrans and proofVerify arguments; the zk proof
argument itself is never read by this function. -/
def verify_state_transition
    (rootTrans : Hash256 → Hash256 → Except SystemError Bool)
    (proofVerify : Bytes → Except SystemError Bool)
    (prev_state new_state : OverpassBitcoinState) (proof : ZkProof) :
    Except SystemError Bool :=
  match verify_state_constraints prev_state new_state with
  | .error e => .error e
  | .ok false => .ok false
  | .ok true =>
    match rootTrans prev_state.state_root new_state.state_root with
    | .error e => .error e
    | .ok false => .ok false
    | .ok true =>
      match proofVerify (prev_state.state_root ++ new_state.state_root
          ++ le8 new_state.current_balance) with
      | .error e =>
        .error { error_type := .VerificationError, message := e.message }
      | .ok b => .ok b

/-- C5: whenever the new sequence differs from the previous sequence plus
one, or the channel ids differ, or the pubkey hashes differ,
verify_state_transition returns Ok false, whatever the tree-transition
check, the proof backend and the proof say (the hypothesis
prev.sequence + 1 < 2^64 rules the u64 overflow edge out). -/
theorem C5_transition_constraints
    (rootTrans : Hash256 → Hash256 → Except SystemError Bool)
    (proofVerify : Bytes → Except SystemError Bool)
    (ps ns : OverpassBitcoinState) (proof : ZkProof)
    (hseq : ps.sequence + 1 < U64MOD)
    (hbad : ns.sequence ≠ ps.sequence + 1 ∨ ps.channel_id ≠ ns.channel_id ∨
      ps.pubkey_hash ≠ ns.pubkey_hash) :
    verify_state_transition rootTrans proofVerify ps ns proof = .ok false := by
  have hmod : (ps.sequence + 1) % U64MOD = ps.sequence + 1 :=
    Nat.mod_eq_of_lt hseq
  have hcon : verify_state_constraints ps ns = .ok false := by
    rw [verify_state_constraints]
    by_cases hc : ps.channel_id ≠ ns.channel_id
    · rw [if_pos hc]
    · rw [if_neg hc]
      by_cases hs : ns.sequence ≠ (ps.sequence + 1) % U64MOD
      · rw [if_pos hs]
      · rw [if_neg hs]
        push_neg at hc hs
        rw [hmod] at hs
        have hp : ps.pubkey_hash ≠ ns.pubkey_hash := by
          rcases hbad with h1 | h2 | h3
          · exact absurd hs h1
          · exact absurd hc h2
          · exact h3
        rw [if_pos hp]
  rw [verify_state_transition, hcon]

/-- Previous state for the C5 witness. -/
def prevW : OverpassBitcoinState :=
  { channel_id := zero32
    state_root := zero32
    current_balance := 0
    nonce := 0
    sequence := 0
    pubkey_hash := List.replicate 20 1
    merkle_proof := [] }

/-- New state for the C5 witness: sequence jumps to 5 instead of 1. -/
def newW : OverpassBitcoinState := { prevW with sequence := 5 }

/-- Witness for C5_transition_constraints at concrete states whose sequence
jump is wrong, with oracles that would accept everything. -/
theorem C5_transition_constraints_witness :
    verify_state_transition (fun _ _ => .ok true) (fun _ => .ok true)
      prevW newW proofW3 = .ok false :=
  C5_transition_constraints (fun _ _ => .ok true) (fun _ => .ok true)
    prevW newW proofW3 (by decide) (Or.inl (by decide))

/-! ## Response manager (src/core/storage_node/attest/response.rs) -/

def MAX_VERIFICATION_ATTEMPTS : Nat := 3

def DEFAULT_BACKOFF_MS : Nat := 1000

def MAX_RESPONSE_SIZE : Nat := 1024 * 1024

def MIN_RESPONSE_THRESHOLD : Nat := 1

def MIN_RESPONSE_INTERVAL : Nat := 1000

/-- VerificationMetrics: the u64 counters and the configured threshold and
interval; the floating point average/last-time fields are elided (see the
file header). -/
structure VerificationMetrics where
  total_verifications : Nat
  successful_verifications : Nat
  failed_verifications : Nat
  response_threshold : Nat
  response_interval : Nat
deriving DecidableEq, Repr

/-- ResponseManager state: the storage-node maps it reads, the configured
threshold and interval, the running flag and the metrics. -/
structure ResponseManager where
  stored_bocs : List (Hash256 × BOC)
  stored_proofs : List (Hash256 × ZkProof)
  response_threshold : Nat
  response_interval : Nat
  is_verifying : Bool
  metrics : VerificationMetrics
deriving DecidableEq, Repr

namespace ResponseManager

/-- verify_single_response: look the proof hash up in the stored proofs; a
missing proof is an InvalidProof error with the metrics untouched; a found
proof counts one total and one successful verification (the verification
body itself is empty in the source, timing aside, so a found proof always
succeeds). -/
def verify_single_response (proofs : List (Hash256 × ZkProof))
    (m : VerificationMetrics) (proof_hash : Hash256) :
    Except SystemError Unit × VerificationMetrics :=
  match lookupAssoc proofs proof_hash with
  | none =>
    (.error { error_type := .InvalidProof, message := "Proof not found" }, m)
  | some _ =>
    (.ok (),
      { m with
        total_verifications := wrapSucc64 m.total_verifications
        successful_verifications := wrapSucc64 m.successful_verifications })

/-- The retry loop of verify_responses for one proof hash: while
attempts < MAX_VERIFICATION_ATTEMPTS, attempt verification and stop at the
first success; on a failure increment attempts, surface the error once
attempts reaches MAX_VERIFICATION_ATTEMPTS, and otherwise wait
DEFAULT_BACKOFF_MS * 2 ^ attempts milliseconds (with attempts already
incremented) before retrying.  Because admission runs concurrently, the
proof map can change between attempts (spec section 5): the map seen by
attempt number a is snap a.  The delays slept between attempts are
collected in the result.  Recursion is on the remaining attempt budget;
exhausting it exits the while loop. -/
def verifyLoopGo (snap : Nat → List (Hash256 × ZkProof)) (proof_hash : Hash256) :
    Nat → Nat → VerificationMetrics →
    Except SystemError Unit × VerificationMetrics × List Nat
  | 0, _, m => (.ok (), m, [])
  | budget + 1, attempts, m =>
    match verify_single_response (snap attempts) m proof_hash with
    | (.ok _, m1) => (.ok (), m1, [])
    | (.error e, m1) =>
      if attempts + 1 = MAX_VERIFICATION_ATTEMPTS then (.error e, m1, [])
      else
        let delay := DEFAULT_BACKOFF_MS * 2 ^ (attempts + 1)
        let r := verifyLoopGo snap proof_hash budget (attempts + 1) m1
        (r.1, r.2.1, delay :: r.2.2)

/-- One proof hash through the retry loop, from zero attempts with the full
attempt budget. -/
def verify_one (snap : Nat → List (Hash256 × ZkProof)) (proof_hash : Hash256)
    (m : VerificationMetrics) :
    Except SystemError Unit × VerificationMetrics × List Nat :=
  verifyLoopGo snap proof_hash MAX_VERIFICATION_ATTEMPTS 0 m

/-- verify_responses: each listed proof hash goes through the retry loop in
order; the first proof whose retries are exhausted aborts the batch with its
error.  This deterministic embedding shows every attempt the same
stored-proof map. -/
def verify_responses (proofs : List (Hash256 × ZkProof)) :
    VerificationMetrics → List Hash256 →
    Except SystemError Unit × VerificationMetrics
  | m, [] => (.ok (), m)
  | m, h :: rest =>
    match verify_one (fun _ => proofs) h m with
    | (.error e, m1, _) => (.error e, m1)
    | (.ok _, m1, _) => verify_responses proofs m1 rest

/-- check_response_verification: measure the aggregate size of the stored
objects as the total count of their cells; above MAX_RESPONSE_SIZE the cycle
aborts with an InvalidInput size error before any verification runs and
before anything is touched; otherwise, when the number of stored objects
reaches the response threshold, their keys are batch-verified. -/
def check_response_verification (rm : ResponseManager) :
    Except SystemError Unit × ResponseManager :=
  let total_size := (rm.stored_bocs.map (fun p => p.2.cells.length)).sum
  if total_size > MAX_RESPONSE_SIZE then
    (.error { error_type := .InvalidInput
              message := "Response size exceeds maximum allowed" }, rm)
  else if rm.response_threshold ≤ rm.stored_bocs.length then
    match verify_responses rm.stored_proofs rm.metrics
        (rm.stored_bocs.map Prod.fst) with
    | (.error e, m1) => (.error e, { rm with metrics := m1 })
    | (.ok _, m1) => (.ok (), { rm with metrics := m1 })
  else
    (.ok (), rm)

/-- One iteration of the start_verification background loop (timing and the
floating point average elided): run the cycle check, then count one total
verification plus one successful or one failed verification according to
the cycle outcome; the running flag is not touched by the body. -/
def run_cycle (rm : ResponseManager) : ResponseManager :=
  match check_response_verification rm with
  | (.ok _, rm1) =>
    { rm1 with metrics :=
        { rm1.metrics with
          total_verifications := wrapSucc64 rm1.metrics.total_verifications
          successful_verifications :=
            wrapSucc64 rm1.metrics.successful_verifications } }
  | (.error _, rm1) =>
    { rm1 with metrics :=
        { rm1.metrics with
          total_verifications := wrapSucc64 rm1.metrics.total_verifications
          failed_verifications :=
            wrapSucc64 rm1.metrics.failed_verifications } }

end ResponseManager

/-- Zeroed metrics with the minimum threshold and interval, for concrete
response-manager states. -/
def m0 : VerificationMetrics :=
  { total_verifications := 0
    successful_verifications := 0
    failed_verifications := 0
    response_threshold := MIN_RESPONSE_THRESHOLD
    response_interval := MIN_RESPONSE_INTERVAL }

/-- Attempt snapshots for the C4 counterexample: the proof is absent for
attempts 0 and 1 and present for attempt 2 (fail, fail, succeed). -/
def snapC4 : Nat → List (Hash256 × ZkProof) :=
  fun a => if a == 2 then [(zero32, proofW3)] else []

/-- C4 counterexample: for a proof that fails verification twice and
succeeds on the third attempt, the two inter-attempt backoff delays are
2000 ms and 4000 ms — not the claimed 1000 ms and 2000 ms (the source
doubles from 2^attempts with attempts already incremented); the retry
accounting itself matches the claim: one successful verification, no failed
verification. -/
theorem C4_counterexample :
    (ResponseManager.verify_one snapC4 zero32 m0).2.2 = [2000, 4000] ∧
    ¬ ((ResponseManager.verify_one snapC4 zero32 m0).2.2 = [1000, 2000]) ∧
    (ResponseManager.verify_one snapC4 zero32 m0).1 = .ok () ∧
    (ResponseManager.verify_one snapC4 zero32 m0).2.1.successful_verifications
      = m0.successful_verifications + 1 ∧
    (ResponseManager.verify_one snapC4 zero32 m0).2.1.failed_verifications
      = m0.failed_verifications := by
  refine ⟨by decide, by decide, rfl, by decide, by decide⟩

/-- C4 amended: per-proof verification makes at most 3 attempts with
inter-attempt waits of backoff_base * 2 ^ attempts measured after the
failure increments attempts (base 1000 ms), so the two waits in a
fail-fail-succeed run are 2000 ms and 4000 ms; such a run increments
successful_verifications by exactly 1 and failed_verifications by 0; a
proof failing all 3 attempts surfaces its error with the loop metrics
untouched and the two same waits slept, and the enclosing cycle then counts
it as exactly one failed verification, not one per attempt. -/
theorem C4_amended_retry_accounting :
    (∀ (snap : Nat → List (Hash256 × ZkProof)) (ph : Hash256)
        (m : VerificationMetrics) (p : ZkProof),
      lookupAssoc (snap 0) ph = none → lookupAssoc (snap 1) ph = none →
      lookupAssoc (snap 2) ph = some p →
      m.successful_verifications + 1 < U64MOD →
      m.total_verifications + 1 < U64MOD →
      ((ResponseManager.verify_one snap ph m).1 = .ok () ∧
       (ResponseManager.verify_one snap ph m).2.2 = [2000, 4000] ∧
       (ResponseManager.verify_one snap ph m).2.1.successful_verifications
         = m.successful_verifications + 1 ∧
       (ResponseManager.verify_one snap ph m).2.1.failed_verifications
         = m.failed_verifications ∧
       (ResponseManager.verify_one snap ph m).2.1.total_verifications
         = m.total_verifications + 1)) ∧
    (∀ (snap : Nat → List (Hash256 × ZkProof)) (ph : Hash256)
        (m : VerificationMetrics),
      lookupAssoc (snap 0) ph = none → lookupAssoc (snap 1) ph = none →
      lookupAssoc (snap 2) ph = none →
      ((∃ e, (ResponseManager.verify_one snap ph m).1 = .error e ∧
         e.error_type = SystemErrorType.InvalidProof) ∧
       (ResponseManager.verify_one snap ph m).2.2 = [2000, 4000] ∧
       (ResponseManager.verify_one snap ph m).2.1 = m)) ∧
    (∀ rm : ResponseManager,
      (ResponseManager.check_response_verification rm).1.isOk = false →
      (ResponseManager.check_response_verification rm).2.metrics.failed_verifications
          + 1 < U64MOD →
      ((ResponseManager.run_cycle rm).metrics.failed_verifications
        = (ResponseManager.check_response_verification rm).2.metrics.failed_verifications
            + 1 ∧
       (ResponseManager.run_cycle rm).metrics.successful_verifications
        = (ResponseManager.check_response_verification
            rm).2.metrics.successful_verifications)) := by
  refine ⟨?_, ?_, ?_⟩
  · intro snap ph m p h0 h1 h2 hsucc htot
    have hrun : ResponseManager.verify_one snap ph m
        = (.ok (),
           { m with
             total_verifications := wrapSucc64 m.total_verifications
             successful_verifications := wrapSucc64 m.successful_verifications },
           [2000, 4000]) := by
      simp [ResponseManager.verify_one, ResponseManager.verifyLoopGo,
        ResponseManager.verify_single_response, h0, h1, h2,
        MAX_VERIFICATION_ATTEMPTS, DEFAULT_BACKOFF_MS]
    rw [hrun]
    refine ⟨rfl, rfl, ?_, rfl, ?_⟩
    · dsimp only
      rw [wrapSucc64, Nat.mod_eq_of_lt hsucc]
    · dsimp only
      rw [wrapSucc64, Nat.mod_eq_of_lt htot]
  · intro snap ph m h0 h1 h2
    have hrun : ResponseManager.verify_one snap ph m
        = (.error { error_type := .InvalidProof, message := "Proof not found" },
           m, [2000, 4000]) := by
      simp [ResponseManager.verify_one, ResponseManager.verifyLoopGo,
        ResponseManager.verify_single_response, h0, h1, h2,
        MAX_VERIFICATION_ATTEMPTS, DEFAULT_BACKOFF_MS]
    rw [hrun]
    exact ⟨⟨_, rfl, rfl⟩, rfl, rfl⟩
  · intro rm hfailres hbound
    rw [ResponseManager.run_cycle]
    cases hc : ResponseManager.check_response_verification rm with
    | mk res rm1 =>
      cases res with
      | ok u =>
        rw [hc] at hfailres
        cases hfailres
      | error e =>
        rw [hc] at hbound
        dsimp only at hbound
        dsimp only
        exact ⟨by rw [wrapSucc64, Nat.mod_eq_of_lt hbound], rfl⟩
/-- C7: when the aggregate stored-object size (the total cell count of the
stored objects) exceeds the fixed 1 MiB ceiling, the verification cycle
aborts with an InvalidInput size error before any batch verification runs —
the returned manager state is exactly the input state, so nothing is
evicted and no verification metric moved — and the enclosing loop records
the cycle as one failed verification, leaving the running flag alone. -/
theorem C7_size_ceiling_aborts_cycle (rm : ResponseManager)
    (hsize : (rm.stored_bocs.map (fun p => p.2.cells.length)).sum
      > MAX_RESPONSE_SIZE)
    (hfail : rm.metrics.failed_verifications + 1 < U64MOD)
    (htot : rm.metrics.total_verifications + 1 < U64MOD) :
    MAX_RESPONSE_SIZE = 1024 * 1024 ∧
    (∃ e, (ResponseManager.check_response_verification rm).1 = .error e ∧
      e.error_type = SystemErrorType.InvalidInput) ∧
    (ResponseManager.check_response_verification rm).2 = rm ∧
    (ResponseManager.run_cycle rm).stored_bocs = rm.stored_bocs ∧
    (ResponseManager.run_cycle rm).stored_proofs = rm.stored_proofs ∧
    (ResponseManager.run_cycle rm).is_verifying = rm.is_verifying ∧
    (ResponseManager.run_cycle rm).metrics.failed_verifications
      = rm.metrics.failed_verifications + 1 ∧
    (ResponseManager.run_cycle rm).metrics.successful_verifications
      = rm.metrics.successful_verifications ∧
    (ResponseManager.run_cycle rm).metrics.total_verifications
      = rm.metrics.total_verifications + 1 := by
  have hcheck : ResponseManager.check_response_verification rm
      = (.error { error_type := .InvalidInput
                  message := "Response size exceeds maximum allowed" }, rm) := by
    rw [ResponseManager.check_response_verification]
    rw [if_pos hsize]
  have hcycle : ResponseManager.run_cycle rm
      = { rm with metrics :=
          { rm.metrics with
            total_verifications := wrapSucc64 rm.metrics.total_verifications
            failed_verifications :=
              wrapSucc64 rm.metrics.failed_verifications } } := by
    rw [ResponseManager.run_cycle, hcheck]
  rw [hcheck, hcycle]
  refine ⟨rfl, ⟨_, rfl, rfl⟩, rfl, rfl, rfl, rfl, ?_, rfl, ?_⟩
  · dsimp only
    rw [wrapSucc64, Nat.mod_eq_of_lt hfail]
  · dsimp only
    rw [wrapSucc64, Nat.mod_eq_of_lt htot]

/-- A BOC with one cell more than the size ceiling. -/
def bigBoc : BOC :=
  { cells := List.replicate (MAX_RESPONSE_SIZE + 1) { data := [] }, roots := [] }

/-- Running response manager holding one oversized object. -/
def rmBig : ResponseManager :=
  { stored_bocs := [(zero32, bigBoc)]
    stored_proofs := []
    response_threshold := 1
    response_interval := 1000
    is_verifying := true
    metrics := m0 }

/-- Witness for C7_size_ceiling_aborts_cycle at the concrete oversized
state rmBig. -/
theorem C7_size_ceiling_aborts_cycle_witness :
    MAX_RESPONSE_SIZE = 1024 * 1024 ∧
    (∃ e, (ResponseManager.check_response_verification rmBig).1 = .error e ∧
      e.error_type = SystemErrorType.InvalidInput) ∧
    (ResponseManager.check_response_verification rmBig).2 = rmBig ∧
    (ResponseManager.run_cycle rmBig).stored_bocs = rmBig.stored_bocs ∧
    (ResponseManager.run_cycle rmBig).stored_proofs = rmBig.stored_proofs ∧
    (ResponseManager.run_cycle rmBig).is_verifying = rmBig.is_verifying ∧
    (ResponseManager.run_cycle rmBig).metrics.failed_verifications
      = rmBig.metrics.failed_verifications + 1 ∧
    (ResponseManager.run_cycle rmBig).metrics.successful_verifications
      = rmBig.metrics.successful_verifications ∧
    (ResponseManager.run_cycle rmBig).metrics.total_verifications
      = rmBig.metrics.total_verifications + 1 :=
  C7_size_ceiling_aborts_cycle rmBig
    (by simp [rmBig, bigBoc]) (by decide) (by decide)

end Overpass
